import Mathlib

/-!
Shallow embedding of `src/main.py` (hotel-data normalization and merge service).

The Python data classes `Location`, `Amenities`, `Image`, `Images`, `Hotel`
become Lean structures; a Python field that may be `None` becomes an `Option`.
Python floats carry no arithmetic here (they are only copied and tested for
truthiness), so they are embedded as `ℚ`.  Fallible Python code (`dict[key]`
raising `KeyError`, `len(None)` raising `TypeError`) is embedded with `Except`.
`list(set(xs))` is embedded as a first-occurrence deduplication; Python's set
iteration order is unspecified, so every property about a set-backed list field
is stated up to order and duplicates.
-/

set_option autoImplicit false

namespace HotelMerge

/-- Embeds the Python exceptions the source can raise: `KeyError(k)` from a
required `dict[k]` access, and `TypeError` (e.g. `len(None)`). -/
inductive PyError where
  | keyError (key : String)
  | typeError (msg : String)
  deriving Repr, DecidableEq

/-- The `Location` dataclass of `src/main.py` (lines 7-13): every field defaults to
`None`. -/
structure Location where
  lat : Option ℚ := none
  lng : Option ℚ := none
  address : Option String := none
  city : Option String := none
  country : Option String := none
  deriving Repr, DecidableEq

/-- The `Amenities` dataclass (lines 16-19). -/
structure Amenities where
  general : List String := []
  room : List String := []
  deriving Repr, DecidableEq

/-- The `Image` dataclass (lines 22-25). -/
structure Image where
  link : String
  description : String
  deriving Repr, DecidableEq

/-- The `Images` dataclass (lines 28-32). -/
structure Images where
  rooms : List Image := []
  site : List Image := []
  amenities : List Image := []
  deriving Repr, DecidableEq

/-- The `Hotel` dataclass (lines 35-45).  `source` is `Option String` because
`_merge` executes `del base.source`; a deleted attribute is embedded as `none`.
`location` is `Option Location` because `_merge` tests `not base.location`,
i.e. the attribute can hold `None`. -/
structure Hotel where
  id : String
  source : Option String
  destination_id : Int
  name : String
  location : Option Location := some {}
  description : String := ""
  amenities : Amenities := {}
  images : Images := {}
  booking_conditions : List String := []
  deriving Repr, DecidableEq

/-- Python truthiness of an optional string: `None` and `""` are falsy. -/
def truthyStr : Option String → Bool
  | none => false
  | some s => s ≠ ""

/-- Python truthiness of an optional float: `None` and `0.0` are falsy. -/
def truthyQ : Option ℚ → Bool
  | none => false
  | some q => q ≠ 0

/-- Helper for `dedupFirst`: drops every element already in `seen`, keeping
the first occurrence of each value in encounter order. -/
def dedupFirstGo {α : Type} [DecidableEq α] (seen : List α) : List α → List α
  | [] => []
  | x :: rest =>
    if x ∈ seen then dedupFirstGo seen rest
    else x :: dedupFirstGo (x :: seen) rest

/-- First-occurrence deduplication, preserving encounter order.  Embeds the
Python dict-comprehension dedup on lines 178-179 (the dict key `(link,
description)` is the whole `Image` value, so keying by the pair is keying by
the value) and, up to iteration order, `list(set(xs))` on lines 176-181. -/
def dedupFirst {α : Type} [DecidableEq α] (xs : List α) : List α :=
  dedupFirstGo [] xs

/-- Embeds `list(set(xs))` (lines 176, 177, 181).  Python's set iteration order is
unspecified; this embedding fixes first-occurrence order, and properties over
these fields are stated up to order and duplicates. -/
def pySetList (xs : List String) : List String := dedupFirst xs

/-- The per-field loop of `_merge` over `base.location.__dataclass_fields__`
(lines 161-170), run when both locations are present: `country` is overridden
by a truthy incoming value when `incoming.source == 'Paperflies'`; every field
(including `country` otherwise) is filled in when the base value is falsy and
the incoming value truthy. -/
def mergeLocation (bl il : Location) (incomingSource : Option String) : Location :=
  { lat := if !truthyQ bl.lat && truthyQ il.lat then il.lat else bl.lat
    lng := if !truthyQ bl.lng && truthyQ il.lng then il.lng else bl.lng
    address := if !truthyStr bl.address && truthyStr il.address then il.address else bl.address
    city := if !truthyStr bl.city && truthyStr il.city then il.city else bl.city
    country :=
      if truthyStr il.country && decide (incomingSource = some "Paperflies") then il.country
      else if !truthyStr bl.country && truthyStr il.country then il.country
      else bl.country }

/-- Embeds `HotelsService._merge` (lines 158-183), as a function from `(base,
incoming)` to the mutated `base`.  Line-by-line: the location branch
(160-173), `description` via `or` (175), `list(set(..))` on the amenity lists
and booking conditions (176, 177, 181), dict-keyed dedup of `rooms`/`site`
galleries (178-179), plain `extend` of the `amenities` gallery (180), and
`del base.source` (182-183). -/
def merge (base incoming : Hotel) : Hotel :=
  { id := base.id
    source := none
    destination_id := base.destination_id
    name := base.name
    location :=
      match base.location, incoming.location with
      | some bl, some il => some (mergeLocation bl il incoming.source)
      | none, il => il
      | some bl, none => some bl
    description := if base.description ≠ "" then base.description else incoming.description
    amenities :=
      { general := pySetList (base.amenities.general ++ incoming.amenities.general)
        room := pySetList (base.amenities.room ++ incoming.amenities.room) }
    images :=
      { rooms := dedupFirst (base.images.rooms ++ incoming.images.rooms)
        site := dedupFirst (base.images.site ++ incoming.images.site)
        amenities := base.images.amenities ++ incoming.images.amenities }
    booking_conditions := pySetList (base.booking_conditions ++ incoming.booking_conditions) }

/-- Lookup in the `self.hotels` dict, embedded as an insertion-ordered
association list. -/
def lookupA (m : List (String × Hotel)) (k : String) : Option Hotel :=
  match m with
  | [] => none
  | (k', h) :: rest => if k' = k then some h else lookupA rest k

/-- In-place overwrite `self.hotels[k] = h` for a key already present
(Python dicts keep the key's original position on overwrite). -/
def updateA (m : List (String × Hotel)) (k : String) (h : Hotel) : List (String × Hotel) :=
  match m with
  | [] => []
  | (k', h') :: rest => if k' = k then (k', h) :: rest else (k', h') :: updateA rest k h

/-- Embeds `HotelsService.merge_and_save` (lines 151-156): fold the incoming entities
into the id-keyed accumulator, storing an unseen id as-is and merging an
already-seen id via `_merge`. -/
def mergeAndSave (m : List (String × Hotel)) : List Hotel → List (String × Hotel)
  | [] => m
  | h :: rest =>
    match lookupA m h.id with
    | none => mergeAndSave (m ++ [(h.id, h)]) rest
    | some base => mergeAndSave (updateA m h.id (merge base h)) rest

/-- The hotel at position `i` matches when its `id` equals `hotel_ids[i]` and
either there is no destination at that position or its `destination_id`
equals it (line 201). -/
def matchOne (h : Hotel) (hid : String) (did : Option Int) : Bool :=
  decide (h.id = hid) &&
    (match did with
     | none => true
     | some d => decide (h.destination_id = d))

/-- The both-present loop of `HotelsService.find` (lines 197-204), with `i`
the current outer-loop index and `acc` the accumulated `results`.  The
`return results` on line 204 sits inside the inner `for`, at the same depth
as the `if`, so the inner loop only ever examines the first element of
`hotels_data`: a match appends it and breaks to the next position, a mismatch
returns the accumulated list at once.  When the outer loop ends without
hitting that `return`, control falls off the end of the function, which in
Python yields `None` — embedded as `none`. -/
def findLoopGo (hotels : List Hotel) (ds : List Int) :
    Nat → List String → List Hotel → Option (List Hotel)
  | _, [], _ => none
  | i, hid :: rest, acc =>
    match hotels with
    | [] => findLoopGo hotels ds (i + 1) rest acc
    | h0 :: _ =>
      if matchOne h0 hid ds[i]? then findLoopGo hotels ds (i + 1) rest (acc ++ [h0])
      else some acc

/-- Embeds `HotelsService.find` (lines 185-204) over the dict's value list.  The
first two guards mirror lines 188-193; the guard on line 194 repeats the
condition of line 191 verbatim, so it can never fire and is omitted.  When
both arguments are `None`, no guard returns and line 197 evaluates
`len(None)`, raising `TypeError`.  The result is `Option (List Hotel)`
inside `Except`: `some` for an explicit `return` of a list, `none` for
falling off the end of the function (Python `None`). -/
def find (hotels : List Hotel) (hotel_ids : Option (List String))
    (destination_ids : Option (List Int)) : Except PyError (Option (List Hotel)) :=
  match hotel_ids, destination_ids with
  | none, some ds =>
    .ok (some (hotels.filter (fun h => decide (h.destination_id ∈ ds))))
  | some hs, none =>
    .ok (some (hotels.filter (fun h => decide (h.id ∈ hs))))
  | none, none => .error (.typeError "object of type NoneType has no len()")
  | some hs, some ds => .ok (findLoopGo hotels ds 0 hs [])

/-! ### Supplier adapters

Each raw record is embedded as a structure of `Option` fields: `none` means
the key is absent from the dict.  A required access `dto[k]` on an absent key
is `KeyError(k)`; `dto.get(k, d)` is `Option.getD`; `dto.get(k)` passes the
`Option` through. -/

/-- Python `str.strip()`: removes leading and trailing whitespace.
(Python also strips `\x0b`/`\x0c`, which never occur in the claims.) -/
def pyStrip (s : String) : String :=
  String.mk (((s.data.dropWhile Char.isWhitespace).reverse.dropWhile
    Char.isWhitespace).reverse)

/-- Raw Acme record (keys read by `Acme.parse`, lines 69-86). -/
structure AcmeRaw where
  Id : Option String := none
  DestinationId : Option Int := none
  Name : Option String := none
  Description : Option String := none
  Latitude : Option ℚ := none
  Longitude : Option ℚ := none
  Address : Option String := none
  PostalCode : Option String := none
  City : Option String := none
  Country : Option String := none
  deriving Repr, DecidableEq

/-- Embeds `Acme.parse` (lines 68-86): `Id`, `DestinationId`, `Name` are required
dict accesses (evaluated in that order), the rest use `.get`.  The address is
always the f-string `f"{Address.strip()}, {PostalCode.strip()}"` with `''`
defaults; the commented-out `Facilities` block is dead code and leaves
`amenities` at its dataclass default. -/
def acmeParse (dto : AcmeRaw) : Except PyError Hotel :=
  match dto.Id with
  | none => .error (.keyError "Id")
  | some i =>
    match dto.DestinationId with
    | none => .error (.keyError "DestinationId")
    | some d =>
      match dto.Name with
      | none => .error (.keyError "Name")
      | some n =>
        .ok
          { id := i
            source := some "Acme"
            destination_id := d
            name := n
            description := dto.Description.getD ""
            location := some
              { lat := dto.Latitude
                lng := dto.Longitude
                address := some (pyStrip (dto.Address.getD "") ++ ", " ++
                  pyStrip (dto.PostalCode.getD ""))
                city := dto.City
                country := dto.Country } }

/-- A raw entry of a Patagonia image list: `image['url']` and
`image['description']` are required accesses (line 111-112). -/
structure RawImageUD where
  url : Option String := none
  description : Option String := none
  deriving Repr, DecidableEq

/-- The dict under the required `images` key of a Patagonia record:
`rooms` and `amenities` are read with `.get(_, [])`. -/
structure PatagoniaImages where
  rooms : Option (List RawImageUD) := none
  amenities : Option (List RawImageUD) := none
  deriving Repr, DecidableEq

/-- Raw Patagonia record (keys read by `Patagonia.parse`, lines 95-114). -/
structure PatagoniaRaw where
  id : Option String := none
  destination : Option Int := none
  name : Option String := none
  info : Option String := none
  lat : Option ℚ := none
  lng : Option ℚ := none
  address : Option String := none
  images : Option PatagoniaImages := none
  deriving Repr, DecidableEq

/-- The list comprehension `[Image(link=image['url'],
description=image['description']) for image in l]` (lines 111-112): each item
requires `url` then `description`, failing with `KeyError` left to right. -/
def parseImagesUD : List RawImageUD → Except PyError (List Image)
  | [] => .ok []
  | img :: rest =>
    match img.url with
    | none => .error (.keyError "url")
    | some u =>
      match img.description with
      | none => .error (.keyError "description")
      | some d =>
        match parseImagesUD rest with
        | .error e => .error e
        | .ok xs => .ok (Image.mk u d :: xs)

/-- Embeds `Patagonia.parse` (lines 94-114): `id`, `destination`, `name` are
required; `info`, `lat`, `lng`, `address` use `.get`; `dto['images']` is a
required access, after which `rooms`/`amenities` default to `[]`; the
commented-out room-amenity block is dead code. -/
def patagoniaParse (dto : PatagoniaRaw) : Except PyError Hotel :=
  match dto.id with
  | none => .error (.keyError "id")
  | some i =>
    match dto.destination with
    | none => .error (.keyError "destination")
    | some d =>
      match dto.name with
      | none => .error (.keyError "name")
      | some n =>
        match dto.images with
        | none => .error (.keyError "images")
        | some ims =>
          match parseImagesUD (ims.rooms.getD []) with
          | .error e => .error e
          | .ok roomImages =>
            match parseImagesUD (ims.amenities.getD []) with
            | .error e => .error e
            | .ok amenityImages =>
              .ok
                { id := i
                  source := some "Patagonia"
                  destination_id := d
                  name := n
                  description := dto.info.getD ""
                  location := some
                    { lat := dto.lat
                      lng := dto.lng
                      address := dto.address }
                  images := { rooms := roomImages, amenities := amenityImages } }

/-- A raw entry of a Paperflies image list: `image['link']` and
`image['caption']` are required accesses (lines 140-141). -/
structure RawImageLC where
  link : Option String := none
  caption : Option String := none
  deriving Repr, DecidableEq

/-- The dict under the required `images` key of a Paperflies record. -/
structure PaperfliesImages where
  rooms : Option (List RawImageLC) := none
  site : Option (List RawImageLC) := none
  deriving Repr, DecidableEq

/-- The dict under the optional `location` key of a Paperflies record. -/
structure PaperfliesLocation where
  address : Option String := none
  country : Option String := none
  deriving Repr, DecidableEq

/-- The dict under the optional `amenities` key of a Paperflies record. -/
structure PaperfliesAmenities where
  general : Option (List String) := none
  room : Option (List String) := none
  deriving Repr, DecidableEq

/-- Raw Paperflies record (keys read by `Paperflies.parse`, lines 123-144). -/
structure PaperfliesRaw where
  hotel_id : Option String := none
  destination_id : Option Int := none
  hotel_name : Option String := none
  details : Option String := none
  location : Option PaperfliesLocation := none
  amenities : Option PaperfliesAmenities := none
  images : Option PaperfliesImages := none
  booking_conditions : Option (List String) := none
  deriving Repr, DecidableEq

/-- The `link`/`caption` list comprehension (lines 140-141). -/
def parseImagesLC : List RawImageLC → Except PyError (List Image)
  | [] => .ok []
  | img :: rest =>
    match img.link with
    | none => .error (.keyError "link")
    | some u =>
      match img.caption with
      | none => .error (.keyError "caption")
      | some d =>
        match parseImagesLC rest with
        | .error e => .error e
        | .ok xs => .ok (Image.mk u d :: xs)

/-- Embeds `Paperflies.parse` (lines 122-144): `hotel_id`, `destination_id`,
`hotel_name` are required; `details`, `location`, `amenities`,
`booking_conditions` use `.get` with defaults; amenity strings are
lower-cased; `dto['images']` is a required access, after which
`rooms`/`site` default to `[]`. -/
def paperfliesParse (dto : PaperfliesRaw) : Except PyError Hotel :=
  match dto.hotel_id with
  | none => .error (.keyError "hotel_id")
  | some i =>
    match dto.destination_id with
    | none => .error (.keyError "destination_id")
    | some d =>
      match dto.hotel_name with
      | none => .error (.keyError "hotel_name")
      | some n =>
        match dto.images with
        | none => .error (.keyError "images")
        | some ims =>
          match parseImagesLC (ims.rooms.getD []) with
          | .error e => .error e
          | .ok roomImages =>
            match parseImagesLC (ims.site.getD []) with
            | .error e => .error e
            | .ok siteImages =>
              .ok
                { id := i
                  source := some "Paperflies"
                  destination_id := d
                  name := n
                  description := dto.details.getD ""
                  location := some
                    { address := (dto.location.getD {}).address
                      country := (dto.location.getD {}).country }
                  amenities :=
                    { general := ((dto.amenities.getD {}).general.getD []).map String.toLower
                      room := ((dto.amenities.getD {}).room.getD []).map String.toLower }
                  images := { rooms := roomImages, site := siteImages }
                  booking_conditions := dto.booking_conditions.getD [] }

/-- Country recorded for key `k` in the service state: the stored hotel's
`location.country`, flattened. -/
def storedCountry (m : List (String × Hotel)) (k : String) : Option String :=
  match lookupA m k with
  | none => none
  | some h =>
    match h.location with
    | none => none
    | some loc => loc.country

/-- A concrete non-authoritative record with country `"A"`. -/
def c4NonAuth : Hotel :=
  { id := "1", source := some "Acme", destination_id := 5, name := "H",
    location := some { country := some "A" } }

/-- A concrete Paperflies record with country `"B"`. -/
def c4Paperflies : Hotel :=
  { id := "1", source := some "Paperflies", destination_id := 5, name := "H",
    location := some { country := some "B" } }

/-! ### Helper lemmas about first-occurrence deduplication -/

theorem mem_dedupFirstGo {α : Type} [DecidableEq α] (x : α) (xs : List α) :
    ∀ seen : List α, x ∈ dedupFirstGo seen xs ↔ x ∈ xs ∧ x ∉ seen := by
  induction xs with
  | nil => intro seen; simp [dedupFirstGo]
  | cons y rest ih =>
    intro seen
    by_cases hy : y ∈ seen
    · simp only [dedupFirstGo, if_pos hy, ih]
      constructor
      · rintro ⟨hr, hs⟩
        exact ⟨List.mem_cons_of_mem _ hr, hs⟩
      · rintro ⟨hr, hs⟩
        rcases List.mem_cons.mp hr with rfl | hr
        · exact absurd hy hs
        · exact ⟨hr, hs⟩
    · simp only [dedupFirstGo, if_neg hy, List.mem_cons, ih]
      by_cases hx : x = y
      · subst hx
        simp [hy]
      · simp [hx, List.mem_cons]

theorem mem_dedupFirst {α : Type} [DecidableEq α] (x : α) (xs : List α) :
    x ∈ dedupFirst xs ↔ x ∈ xs := by
  simp [dedupFirst, mem_dedupFirstGo]

theorem toFinset_dedupFirst {α : Type} [DecidableEq α] (xs : List α) :
    (dedupFirst xs).toFinset = xs.toFinset := by
  ext y
  simp [List.mem_toFinset, mem_dedupFirst]

theorem count_dedupFirstGo {α : Type} [DecidableEq α] (x : α) (xs : List α) :
    ∀ seen : List α,
      List.count x (dedupFirstGo seen xs) = if x ∈ xs ∧ x ∉ seen then 1 else 0 := by
  induction xs with
  | nil => intro seen; simp [dedupFirstGo]
  | cons y rest ih =>
    intro seen
    by_cases hy : y ∈ seen
    · rw [dedupFirstGo, if_pos hy, ih]
      by_cases hx : x = y
      · subst hx
        simp [hy]
      · simp [List.mem_cons, hx]
    · rw [dedupFirstGo, if_neg hy]
      by_cases hx : x = y
      · subst hx
        rw [List.count_cons_self, ih]
        simp [hy]
      · rw [List.count_cons_of_ne hx, ih]
        simp [List.mem_cons, hx]

theorem count_dedupFirst {α : Type} [DecidableEq α] (x : α) (xs : List α) :
    List.count x (dedupFirst xs) = if x ∈ xs then 1 else 0 := by
  rw [dedupFirst, count_dedupFirstGo]
  simp

/-! ### Claim theorems -/

/-- C1: the claim says `find(None, None)` returns the full merged collection
and never fails.  In the code the guard on line 194 repeats line 191's
condition (`destination_ids is None and hotel_ids is not None`) instead of
testing `hotel_ids is None`, so the both-`None` call reaches
`range(len(hotel_ids))` on line 197 and raises `TypeError` on every
collection, contradicting the claim. -/
theorem c1_find_both_none_raises (hotels : List Hotel) :
    find hotels none none =
      .error (.typeError "object of type NoneType has no len()") := rfl

/-- C4: the country-override rule is order-independent.  If `a` is from a
non-authoritative supplier with country `"A"` and `b` is from Paperflies with
country `"B"`, then whichever of the two the merge engine processes first,
the stored entity's country is `"B"`. -/
theorem c4_country_override (a b : Hotel) (la lb : Location)
    (hid : b.id = a.id)
    (hsa : a.source ≠ some "Paperflies") (hsb : b.source = some "Paperflies")
    (hla : a.location = some la) (hlb : b.location = some lb)
    (hca : la.country = some "A") (hcb : lb.country = some "B") :
    storedCountry (mergeAndSave [] [a, b]) a.id = some "B" ∧
    storedCountry (mergeAndSave [] [b, a]) a.id = some "B" := by
  constructor
  · simp [mergeAndSave, lookupA, updateA, storedCountry, hid, merge, hla, hlb,
      mergeLocation, hcb, hsb, truthyStr]
  · simp [mergeAndSave, lookupA, updateA, storedCountry, hid, merge, hla, hlb,
      mergeLocation, hca, hcb, hsa, truthyStr]

/-- Closed witness for `c4_country_override` at concrete entities. -/
theorem c4_country_override_witness :
    storedCountry (mergeAndSave [] [c4NonAuth, c4Paperflies]) "1" = some "B" ∧
    storedCountry (mergeAndSave [] [c4Paperflies, c4NonAuth]) "1" = some "B" :=
  c4_country_override c4NonAuth c4Paperflies
    { country := some "A" } { country := some "B" }
    rfl (by decide) rfl rfl rfl rfl rfl

/-- Reconciling a location with an identical copy changes nothing: every
field rule yields the same value in both branches. -/
theorem mergeLocation_self (l : Location) (s : Option String) :
    mergeLocation l l s = l := by
  obtain ⟨lat, lng, address, city, country⟩ := l
  simp [mergeLocation]

/-- C3 (amended): reconciling a canonical entity with a copy of itself
preserves `id`, `name`, `destination_id`, `description` and `location`, and
preserves the set-semantics list fields up to order and duplicates, but it
strips `source` (line 183) and self-concatenates the `images.amenities`
gallery (line 180), so the result is not equal to the input in general. -/
theorem c3_reconcile_self_amended (h : Hotel) :
    (merge h h).id = h.id ∧ (merge h h).name = h.name ∧
    (merge h h).destination_id = h.destination_id ∧
    (merge h h).description = h.description ∧
    (merge h h).location = h.location ∧
    (merge h h).source = none ∧
    (merge h h).images.amenities = h.images.amenities ++ h.images.amenities ∧
    (merge h h).amenities.general.toFinset = h.amenities.general.toFinset ∧
    (merge h h).amenities.room.toFinset = h.amenities.room.toFinset ∧
    (merge h h).images.rooms.toFinset = h.images.rooms.toFinset ∧
    (merge h h).images.site.toFinset = h.images.site.toFinset ∧
    (merge h h).booking_conditions.toFinset = h.booking_conditions.toFinset := by
  refine ⟨rfl, rfl, rfl, ?_, ?_, rfl, rfl, ?_, ?_, ?_, ?_, ?_⟩
  · simp [merge]
  · cases hl : h.location <;> simp [merge, hl, mergeLocation_self]
  all_goals
    simp [merge, pySetList, toFinset_dedupFirst, List.toFinset_append, Finset.union_self]

/-- A concrete entity whose `images.amenities` gallery is non-empty. -/
def c3Hotel : Hotel :=
  { id := "1", source := some "Acme", destination_id := 5, name := "H",
    images := { amenities := [{ link := "x", description := "y" }] } }

/-- C3 counterexample: reconciling `c3Hotel` with a copy of itself does not
yield `c3Hotel` — the merged `images.amenities` gallery holds the image twice
and `source` is stripped. -/
theorem c3_counterexample : merge c3Hotel c3Hotel ≠ c3Hotel := by decide

/-- C5 (amended): the two merge orders agree on the set-semantics fields —
the amenity lists, the booking conditions, and the `rooms`/`site` galleries
up to order and duplicates, and the `images.amenities` gallery as a multiset.
They do not agree on fill-in fields such as `description`: when both entities
carry distinct non-empty descriptions, each order keeps the first-processed
entity's description (see the counterexample). -/
theorem c5_commutative_amended (a b : Hotel) :
    (merge a b).amenities.general.toFinset = (merge b a).amenities.general.toFinset ∧
    (merge a b).amenities.room.toFinset = (merge b a).amenities.room.toFinset ∧
    (merge a b).booking_conditions.toFinset = (merge b a).booking_conditions.toFinset ∧
    (merge a b).images.rooms.toFinset = (merge b a).images.rooms.toFinset ∧
    (merge a b).images.site.toFinset = (merge b a).images.site.toFinset ∧
    ((merge a b).images.amenities : Multiset Image) =
      ((merge b a).images.amenities : Multiset Image) := by
  refine ⟨?_, ?_, ?_, ?_, ?_, ?_⟩
  · simp [merge, pySetList, toFinset_dedupFirst, List.toFinset_append, Finset.union_comm]
  · simp [merge, pySetList, toFinset_dedupFirst, List.toFinset_append, Finset.union_comm]
  · simp [merge, pySetList, toFinset_dedupFirst, List.toFinset_append, Finset.union_comm]
  · simp [merge, pySetList, toFinset_dedupFirst, List.toFinset_append, Finset.union_comm]
  · simp [merge, pySetList, toFinset_dedupFirst, List.toFinset_append, Finset.union_comm]
  · exact Multiset.coe_eq_coe.mpr List.perm_append_comm

/-- A concrete entity with description `"d1"`. -/
def c5a : Hotel :=
  { id := "1", source := some "Acme", destination_id := 5, name := "H", description := "d1" }

/-- A concrete entity with description `"d2"`. -/
def c5b : Hotel :=
  { id := "1", source := some "Patagonia", destination_id := 5, name := "H",
    description := "d2" }

/-- C5 counterexample: with two distinct non-empty descriptions, the two
merge orders disagree on `description` (line 175 keeps the base's non-empty
description), so reconciliation is not commutative on all fields other than
`location.country`. -/
theorem c5_counterexample :
    (merge c5a c5b).description = "d1" ∧ (merge c5b c5a).description = "d2" ∧
    "d1" ≠ "d2" := by decide

/-- C6 (amended): merging never changes a truthy `location.lat` of the base —
truthy meaning non-null and non-zero.  (A base `lat` of `0.0` is falsy in
Python and is treated as absent by line 169; see the counterexample.) -/
theorem c6_lat_amended (base incoming : Hotel) (l : Location)
    (hl : base.location = some l) (ht : truthyQ l.lat = true) :
    ((merge base incoming).location).map Location.lat = some l.lat := by
  cases hinc : incoming.location with
  | none => simp [merge, hl, hinc]
  | some il => simp [merge, hl, hinc, mergeLocation, ht]

/-- A concrete base entity sitting on the equator (`lat = 0.0`). -/
def c6Base : Hotel :=
  { id := "1", source := some "Acme", destination_id := 5, name := "H",
    location := some { lat := some 0 } }

/-- A concrete incoming entity with `lat = 1.0`. -/
def c6Incoming : Hotel :=
  { id := "1", source := some "Patagonia", destination_id := 5, name := "H",
    location := some { lat := some 1 } }

/-- C6 counterexample: the base's `lat` is non-null (`0.0`), yet merging
replaces it with the incoming `1.0`, because line 169 tests Python
truthiness (`not base_value`) and `0.0` is falsy. -/
theorem c6_counterexample :
    c6Base.location.map Location.lat = some (some 0) ∧
    ((merge c6Base c6Incoming).location).map Location.lat = some (some 1) ∧
    (0 : ℚ) ≠ 1 := by decide

/-- A concrete base entity with a truthy `lat = 2.0`. -/
def c6TruthyBase : Hotel :=
  { id := "1", source := some "Acme", destination_id := 5, name := "H",
    location := some { lat := some 2 } }

/-- Closed witness for `c6_lat_amended` at a concrete truthy base. -/
theorem c6_lat_amended_witness :
    ((merge c6TruthyBase c6Incoming).location).map Location.lat = some (some 2) :=
  c6_lat_amended c6TruthyBase c6Incoming { lat := some 2 } rfl (by decide)

/-- C7: merging two entities that both contain `Image(link=l, desc=d)` in the
`rooms` gallery yields exactly one such entry in the merged `rooms` gallery
(the dict-comprehension on line 178 collapses duplicates keyed by `(link,
description)`), while the merged `amenities` gallery is the verbatim
concatenation of both inputs' galleries (line 180). -/
theorem c7_rooms_dedup_amenities_concat (a b : Hotel) (l d : String)
    (ha : Image.mk l d ∈ a.images.rooms) (hb : Image.mk l d ∈ b.images.rooms) :
    List.count (Image.mk l d) (merge a b).images.rooms = 1 ∧
    (merge a b).images.amenities = a.images.amenities ++ b.images.amenities := by
  refine ⟨?_, rfl⟩
  show List.count (Image.mk l d) (dedupFirst (a.images.rooms ++ b.images.rooms)) = 1
  rw [count_dedupFirst]
  simp [List.mem_append, ha]

/-- A concrete entity carrying `Image("x", "y")` in both galleries. -/
def c7a : Hotel :=
  { id := "1", source := some "Acme", destination_id := 5, name := "H",
    images := { rooms := [{ link := "x", description := "y" }],
                amenities := [{ link := "x", description := "y" }] } }

/-- A concrete second entity also carrying `Image("x", "y")` in both
galleries. -/
def c7b : Hotel :=
  { id := "1", source := some "Paperflies", destination_id := 5, name := "H",
    images := { rooms := [{ link := "x", description := "y" }],
                amenities := [{ link := "x", description := "y" }] } }

/-- Closed witness for `c7_rooms_dedup_amenities_concat` at concrete
entities. -/
theorem c7_rooms_dedup_amenities_concat_witness :
    List.count (Image.mk "x" "y") (merge c7a c7b).images.rooms = 1 ∧
    (merge c7a c7b).images.amenities = c7a.images.amenities ++ c7b.images.amenities :=
  c7_rooms_dedup_amenities_concat c7a c7b "x" "y" (by decide) (by decide)

/-! ### Association-list lemmas for the merge accumulator -/

theorem lookupA_append (m m' : List (String × Hotel)) (k : String) :
    lookupA (m ++ m') k =
      match lookupA m k with
      | some h => some h
      | none => lookupA m' k := by
  induction m with
  | nil => simp [lookupA]
  | cons p rest ih =>
    obtain ⟨k1, h1⟩ := p
    by_cases hk : k1 = k
    · simp [lookupA, hk]
    · simp [lookupA, hk, ih]

theorem lookupA_updateA (m : List (String × Hotel)) (k k' : String) (h : Hotel) :
    lookupA (updateA m k h) k' =
      if k' = k ∧ (lookupA m k).isSome then some h else lookupA m k' := by
  induction m with
  | nil => simp [lookupA, updateA]
  | cons p rest ih =>
    obtain ⟨k1, h1⟩ := p
    by_cases h1k : k1 = k
    · subst h1k
      by_cases hk' : k' = k1
      · subst hk'
        simp [lookupA, updateA]
      · have hk'' : ¬ k1 = k' := fun hh => hk' hh.symm
        simp [lookupA, updateA, hk', hk'']
    · by_cases hk1 : k1 = k'
      · subst hk1
        have hne : ¬ k1 = k := h1k
        have hne' : ¬ (k1 = k ∧ (lookupA ((k1, h1) :: rest) k).isSome) := fun hh => hne hh.1
        simp [lookupA, updateA, h1k]
      · simp [lookupA, updateA, h1k, hk1, ih]

/-- Every entity produced by `_merge` has its `source` stripped
(lines 182-183). -/
theorem merge_source_none (b i : Hotel) : (merge b i).source = none := rfl

/-- Number of entities in the input sequence carrying id `k`. -/
def countId (k : String) (data : List Hotel) : Nat :=
  List.countP (fun x => decide (x.id = k)) data

/-- Once the accumulator holds a source-free entity at `k`, processing more
entities keeps the entity at `k` source-free: an unseen id appends elsewhere,
and a merge at `k` produces a source-free entity again. -/
theorem mergeAndSave_preserves_source_none (data : List Hotel) :
    ∀ m k h, lookupA m k = some h → h.source = none →
      ∃ h', lookupA (mergeAndSave m data) k = some h' ∧ h'.source = none := by
  induction data with
  | nil => intro m k h hl hs; exact ⟨h, hl, hs⟩
  | cons x rest ih =>
    intro m k h hl hs
    simp only [mergeAndSave]
    cases hx : lookupA m x.id with
    | none =>
      refine ih _ k h ?_ hs
      rw [lookupA_append, hl]
    | some base =>
      by_cases hkx : k = x.id
      · subst hkx
        refine ih _ _ (merge base x) ?_ rfl
        rw [lookupA_updateA]
        simp [hx]
      · refine ih _ k h ?_ hs
        rw [lookupA_updateA]
        simp [hkx, hl]

/-- If the accumulator already holds an entity at `k` and at least one more
entity with id `k` arrives, the final entity at `k` is source-free. -/
theorem mergeAndSave_present_source (data : List Hotel) :
    ∀ m k h, lookupA m k = some h → 1 ≤ countId k data →
      ∃ h', lookupA (mergeAndSave m data) k = some h' ∧ h'.source = none := by
  induction data with
  | nil => intro m k h _ hc; simp [countId] at hc
  | cons x rest ih =>
    intro m k h hl hc
    simp only [mergeAndSave]
    by_cases hkx : x.id = k
    · rw [hkx, hl]
      refine mergeAndSave_preserves_source_none rest _ k (merge h x) ?_ rfl
      rw [lookupA_updateA]
      simp [hl]
    · have hkx' : ¬ (k = x.id) := fun hh => hkx hh.symm
      have hc' : 1 ≤ countId k rest := by
        simpa [countId, List.countP_cons, hkx] using hc
      cases hx : lookupA m x.id with
      | none =>
        refine ih _ k h ?_ hc'
        rw [lookupA_append, hl]
      | some base =>
        refine ih _ k h ?_ hc'
        rw [lookupA_updateA]
        simp [hkx', hl]

/-- If `k` is not yet in the accumulator and at least two entities with id
`k` arrive, the final entity at `k` is source-free: the first occurrence is
stored as-is, the second occurrence merges into it. -/
theorem mergeAndSave_absent_source (data : List Hotel) :
    ∀ m k, lookupA m k = none → 2 ≤ countId k data →
      ∃ h', lookupA (mergeAndSave m data) k = some h' ∧ h'.source = none := by
  induction data with
  | nil => intro m k _ hc; simp [countId] at hc
  | cons x rest ih =>
    intro m k hl hc
    simp only [mergeAndSave]
    by_cases hkx : x.id = k
    · rw [hkx, hl]
      have hstep : countId k (x :: rest) = countId k rest + 1 := by
        simp [countId, List.countP_cons, hkx]
      have hc' : 1 ≤ countId k rest := by
        rw [hstep] at hc
        omega
      refine mergeAndSave_present_source rest _ k x ?_ hc'
      rw [lookupA_append, hl]
      simp [lookupA]
    · have hkx' : ¬ (k = x.id) := fun hh => hkx hh.symm
      have hc' : 2 ≤ countId k rest := by
        simpa [countId, List.countP_cons, hkx] using hc
      cases hx : lookupA m x.id with
      | none =>
        refine ih _ k ?_ hc'
        rw [lookupA_append, hl]
        simp [lookupA, hkx]
      | some base =>
        refine ih _ k ?_ hc'
        rw [lookupA_updateA]
        simp [hkx', hl]

/-- C2 (amended): after `merge_and_save` on a fresh service, every stored
entity whose id occurred at least twice in the input has no `source` — but
this does not extend to ids occurring only once, since `del base.source`
runs only inside `_merge` (see the counterexample). -/
theorem c2_source_stripped_amended (data : List Hotel) (k : String) (h : Hotel)
    (hl : lookupA (mergeAndSave [] data) k = some h)
    (hc : 2 ≤ countId k data) :
    h.source = none := by
  obtain ⟨h', hl', hs⟩ := mergeAndSave_absent_source data [] k rfl hc
  rw [hl] at hl'
  rw [Option.some.inj hl']
  exact hs

/-- A concrete entity whose id occurs exactly once in the input. -/
def c2Single : Hotel :=
  { id := "1", source := some "Acme", destination_id := 5, name := "H" }

/-- C2 counterexample: an entity whose id occurred only once is stored as-is
by line 154, so its transient `source` tag survives `merge_and_save`,
contradicting the claim for singletons. -/
theorem c2_counterexample :
    lookupA (mergeAndSave [] [c2Single]) "1" = some c2Single ∧
    c2Single.source = some "Acme" := by decide

/-- A concrete first record with id `"1"`. -/
def c2DupA : Hotel :=
  { id := "1", source := some "Acme", destination_id := 5, name := "H" }

/-- A concrete second record with id `"1"`. -/
def c2DupB : Hotel :=
  { id := "1", source := some "Patagonia", destination_id := 5, name := "H" }

/-- Closed witness for `c2_source_stripped_amended` on a two-record input
sharing one id. -/
theorem c2_source_stripped_amended_witness :
    (merge c2DupA c2DupB).source = none :=
  c2_source_stripped_amended [c2DupA, c2DupB] "1" (merge c2DupA c2DupB)
    (by decide) (by decide)

/-! ### C10: the Acme address join -/

/-- C10: for every raw Acme record with the required fields present, `parse`
succeeds and sets `location.address` to the comma-space join of the trimmed
`Address` and `PostalCode` values (line 79), with `''` substituted for an
absent key — so `location.address` is never `None`. -/
theorem c10_acme_address (dto : AcmeRaw) (i : String) (d : Int) (n : String)
    (hI : dto.Id = some i) (hD : dto.DestinationId = some d) (hN : dto.Name = some n) :
    ∃ h, acmeParse dto = .ok h ∧
      h.location.map Location.address =
        some (some (pyStrip (dto.Address.getD "") ++ ", " ++
          pyStrip (dto.PostalCode.getD ""))) := by
  simp only [acmeParse, hI, hD, hN]
  exact ⟨_, rfl, rfl⟩

/-- A concrete Acme record with both `Address` and `PostalCode` absent. -/
def c10Raw : AcmeRaw := { Id := some "1", DestinationId := some 5, Name := some "N" }

/-- Closed witness for `c10_acme_address`: with both `Address` and
`PostalCode` absent the parsed address is the literal string `", "`. -/
theorem c10_acme_address_witness :
    ∃ h, acmeParse c10Raw = .ok h ∧
      h.location.map Location.address = some (some ", ") := by
  obtain ⟨h, hp, ha⟩ := c10_acme_address c10Raw "1" 5 "N" rfl rfl rfl
  refine ⟨h, hp, ?_⟩
  rw [ha]
  rfl

/-! ### C8: which fields make the adapters fail -/

/-- Whether an embedded Python call returned normally (no exception). -/
def exceptOk {α : Type} (e : Except PyError α) : Bool :=
  match e with
  | .ok _ => true
  | .error _ => false

/-- Every entry of a Patagonia image list carries both required keys. -/
def imagesOkUD (l : List RawImageUD) : Bool :=
  l.all (fun i => i.url.isSome && i.description.isSome)

/-- Every entry of a Paperflies image list carries both required keys. -/
def imagesOkLC (l : List RawImageLC) : Bool :=
  l.all (fun i => i.link.isSome && i.caption.isSome)

theorem parseImagesUD_ok (l : List RawImageUD) :
    exceptOk (parseImagesUD l) = imagesOkUD l := by
  induction l with
  | nil => rfl
  | cons img rest ih =>
    cases hu : img.url with
    | none => simp [parseImagesUD, imagesOkUD, hu, exceptOk]
    | some u =>
      cases hd : img.description with
      | none => simp [parseImagesUD, imagesOkUD, hu, hd, exceptOk]
      | some d =>
        have hstep : parseImagesUD (img :: rest) =
            match parseImagesUD rest with
            | .error e => .error e
            | .ok xs => .ok (Image.mk u d :: xs) := by
          simp [parseImagesUD, hu, hd]
        have hhead : imagesOkUD (img :: rest) = imagesOkUD rest := by
          simp [imagesOkUD, hu, hd]
        rw [hhead, ← ih, hstep]
        cases hr : parseImagesUD rest with
        | error e => rfl
        | ok xs => rfl

theorem parseImagesLC_ok (l : List RawImageLC) :
    exceptOk (parseImagesLC l) = imagesOkLC l := by
  induction l with
  | nil => rfl
  | cons img rest ih =>
    cases hu : img.link with
    | none => simp [parseImagesLC, imagesOkLC, hu, exceptOk]
    | some u =>
      cases hd : img.caption with
      | none => simp [parseImagesLC, imagesOkLC, hu, hd, exceptOk]
      | some d =>
        have hstep : parseImagesLC (img :: rest) =
            match parseImagesLC rest with
            | .error e => .error e
            | .ok xs => .ok (Image.mk u d :: xs) := by
          simp [parseImagesLC, hu, hd]
        have hhead : imagesOkLC (img :: rest) = imagesOkLC rest := by
          simp [imagesOkLC, hu, hd]
        rw [hhead, ← ih, hstep]
        cases hr : parseImagesLC rest with
        | error e => rfl
        | ok xs => rfl

/-- C8 (amended): each adapter's `parse` fails (with `KeyError`, since no
`MalformedRecordError` class exists in the code) exactly when a required
dict access misses.  For Acme the required keys are exactly `Id`,
`DestinationId`, `Name`; but for Patagonia and Paperflies the required set
also includes `images` (line 111 resp. 140 indexes `dto['images']` without a
default) and the `url`/`description` resp. `link`/`caption` keys of every
listed image.  All remaining absent fields get empty/default values. -/
theorem c8_required_fields_amended :
    (∀ r : AcmeRaw, exceptOk (acmeParse r) =
        (r.Id.isSome && r.DestinationId.isSome && r.Name.isSome)) ∧
    (∀ r : PatagoniaRaw, exceptOk (patagoniaParse r) =
        (r.id.isSome && r.destination.isSome && r.name.isSome &&
          (match r.images with
           | none => false
           | some ims =>
             imagesOkUD (ims.rooms.getD []) && imagesOkUD (ims.amenities.getD [])))) ∧
    (∀ r : PaperfliesRaw, exceptOk (paperfliesParse r) =
        (r.hotel_id.isSome && r.destination_id.isSome && r.hotel_name.isSome &&
          (match r.images with
           | none => false
           | some ims =>
             imagesOkLC (ims.rooms.getD []) && imagesOkLC (ims.site.getD [])))) := by
  refine ⟨fun r => ?_, fun r => ?_, fun r => ?_⟩
  · cases hI : r.Id <;> cases hD : r.DestinationId <;> cases hN : r.Name <;>
      simp [acmeParse, hI, hD, hN, exceptOk]
  · cases h1 : r.id <;> cases h2 : r.destination <;> cases h3 : r.name <;>
      cases h4 : r.images <;>
      simp only [patagoniaParse, h1, h2, h3, h4, exceptOk, Option.isSome_none,
        Option.isSome_some, Bool.false_and, Bool.and_false, Bool.true_and, Bool.and_true]
    case some.some.some.some ims =>
      cases hr : parseImagesUD (ims.rooms.getD []) with
      | error e =>
        rw [← parseImagesUD_ok, ← parseImagesUD_ok, hr]
        simp [exceptOk]
      | ok xs =>
        cases ha : parseImagesUD (ims.amenities.getD []) with
        | error e =>
          rw [← parseImagesUD_ok, ← parseImagesUD_ok, hr, ha]
          simp [exceptOk]
        | ok ys =>
          rw [← parseImagesUD_ok, ← parseImagesUD_ok, hr, ha]
          simp [exceptOk]
  · cases h1 : r.hotel_id <;> cases h2 : r.destination_id <;> cases h3 : r.hotel_name <;>
      cases h4 : r.images <;>
      simp only [paperfliesParse, h1, h2, h3, h4, exceptOk, Option.isSome_none,
        Option.isSome_some, Bool.false_and, Bool.and_false, Bool.true_and, Bool.and_true]
    case some.some.some.some ims =>
      cases hr : parseImagesLC (ims.rooms.getD []) with
      | error e =>
        rw [← parseImagesLC_ok, ← parseImagesLC_ok, hr]
        simp [exceptOk]
      | ok xs =>
        cases ha : parseImagesLC (ims.site.getD []) with
        | error e =>
          rw [← parseImagesLC_ok, ← parseImagesLC_ok, hr, ha]
          simp [exceptOk]
        | ok ys =>
          rw [← parseImagesLC_ok, ← parseImagesLC_ok, hr, ha]
          simp [exceptOk]

/-- C8 counterexample: a Patagonia record with all three claimed required
fields (`id`, `destination`, `name`) present but the optional-per-the-claim
`images` key absent makes `parse` raise (`KeyError('images')` from line 111),
so `parse` does not succeed whenever `id`, `destination_id`, `name` are
present, and it does raise for the absence of a field the spec calls
optional. -/
theorem c8_counterexample :
    patagoniaParse { id := some "1", destination := some 5, name := some "H" } =
      .error (.keyError "images") := rfl

/-! ### C9: the both-present branch of `find` -/

/-- Pairs each hotel id (starting at position `i`) with the destination id at
the same position, `none` past the end of `destination_ids` (line 199). -/
def pairWith (ds : List Int) : Nat → List String → List (String × Option Int)
  | _, [] => []
  | i, hid :: rest => (hid, ds[i]?) :: pairWith ds (i + 1) rest

/-- Modelled from the amended claim: with both filters present the code
inspects only the first hotel of the collection.  Walking the positions in
order, it appends the first hotel once for every leading position that hotel
matches; at the first position it fails to match, the accumulated list is
returned; if every position matches (or there are no hotels or no
positions), control falls off the end of the Python function, returning
`None`. -/
def findBothModel (hotels : List Hotel) (hs : List String) (ds : List Int) :
    Option (List Hotel) :=
  match hotels with
  | [] => none
  | h0 :: _ =>
    if ((pairWith ds 0 hs).takeWhile (fun p => matchOne h0 p.1 p.2)).length =
        (pairWith ds 0 hs).length then none
    else some (List.replicate
      ((pairWith ds 0 hs).takeWhile (fun p => matchOne h0 p.1 p.2)).length h0)

theorem findLoopGo_nil_hotels (ds : List Int) (hs : List String) :
    ∀ i acc, findLoopGo [] ds i hs acc = none := by
  induction hs with
  | nil => intro i acc; rfl
  | cons hid rest ih => intro i acc; rw [findLoopGo]; exact ih (i + 1) acc

theorem findLoopGo_cons (h0 : Hotel) (hrest : List Hotel) (ds : List Int)
    (hs : List String) :
    ∀ i acc,
      findLoopGo (h0 :: hrest) ds i hs acc =
        if ((pairWith ds i hs).takeWhile (fun p => matchOne h0 p.1 p.2)).length =
            (pairWith ds i hs).length then none
        else some (acc ++ List.replicate
          ((pairWith ds i hs).takeWhile (fun p => matchOne h0 p.1 p.2)).length h0) := by
  induction hs with
  | nil => intro i acc; simp [findLoopGo, pairWith]
  | cons hid rest ih =>
    intro i acc
    rw [show pairWith ds i (hid :: rest) = (hid, ds[i]?) :: pairWith ds (i + 1) rest from rfl]
    rw [List.takeWhile_cons]
    cases hm : matchOne h0 hid ds[i]? with
    | false =>
      rw [show findLoopGo (h0 :: hrest) ds i (hid :: rest) acc = some acc from by
        rw [findLoopGo]
        simp [hm]]
      simp
    | true =>
      rw [show findLoopGo (h0 :: hrest) ds i (hid :: rest) acc =
          findLoopGo (h0 :: hrest) ds (i + 1) rest (acc ++ [h0]) from by
        rw [findLoopGo]
        simp [hm]]
      rw [ih]
      by_cases hl : ((pairWith ds (i + 1) rest).takeWhile
          (fun p => matchOne h0 p.1 p.2)).length = (pairWith ds (i + 1) rest).length
      · simp [hl]
      · simp [hl, List.replicate_succ, List.append_assoc]

/-- C9 (amended): with both filters present, `find` behaves as
`findBothModel`: it never scans past the first hotel of the merged
collection, returns the accumulated repetitions of that hotel at the first
position the hotel fails to match, and returns Python `None` (no list at
all) when every position matches — not the per-position union of first
matches the claim describes. -/
theorem c9_find_both_amended (hotels : List Hotel) (hs : List String) (ds : List Int) :
    find hotels (some hs) (some ds) = .ok (findBothModel hotels hs ds) := by
  cases hotels with
  | nil =>
    simp [find, findBothModel, findLoopGo_nil_hotels]
  | cons h0 hrest =>
    simp only [find, findBothModel]
    rw [findLoopGo_cons]
    simp

/-- A concrete hotel with id `"a"`. -/
def c9A : Hotel := { id := "a", source := some "Acme", destination_id := 1, name := "A" }

/-- A concrete hotel with id `"b"`. -/
def c9B : Hotel := { id := "b", source := some "Acme", destination_id := 2, name := "B" }

/-- C9 counterexample: the collection holds a hotel with id `"b"` (the claim
says position 0 of `hotelIds = ["b"]` contributes the first such hotel, so
the result should contain it), but the code compares only the first hotel
`c9A`, fails, and returns the empty accumulated list. -/
theorem c9_counterexample :
    find [c9A, c9B] (some ["b"]) (some []) = .ok (some []) ∧
    c9B ∈ [c9A, c9B] ∧ c9B.id = "b" :=
  ⟨rfl, by decide, rfl⟩

end HotelMerge
